import Mathlib

/-!
Shallow embedding of the authorization-scoped CRUD + soft-delete data-access
layer of the fastapi-mcq repository (app/auth, app/test_management, app/mcq).

The relational store is modelled as three in-memory tables (lists of rows).
SQLAlchemy `select ... where` becomes `List.find?` / `List.filter` over a
table, `update ... where ... values` becomes a `List.map` that patches every
row matching the same WHERE predicate, and `order_by` becomes a sort by the
relevant timestamp column.  Timestamps are abstracted as `Nat` values; the
value the database would assign via `func.now()` is passed in explicitly as a
`now` argument to the mutating operations (it feeds `updated_at`, mirroring
the `onupdate=func.now()` column option).  Primary keys are `Nat`.

Fallible Python paths (raised exceptions) are modelled with `Except`:
the `@validates` hook of the MCQ model raises `ValueError`, the
`check_correct_answer_range` CHECK constraint and the unique email
constraint raise `IntegrityError`, and the FastAPI services raise
`HTTPException` values carrying a status code and a detail string.
-/

namespace FastapiMcq

/-- Row of the `user` table (app/auth/models.py, class User). -/
structure UserRow where
  id : Nat
  email : String
  password_hash : String
  created_at : Nat
  updated_at : Nat
  is_deleted : Bool
  deriving DecidableEq, Repr

/-- Row of the `test` table (app/test_management/models.py, class Test). -/
structure TestRow where
  id : Nat
  title : String
  description : Option String
  user_id : Nat
  created_at : Nat
  updated_at : Nat
  is_deleted : Bool
  deriving DecidableEq, Repr

/-- Row of the `mcq` table (app/mcq/models.py, class MCQ). -/
structure MCQRow where
  id : Nat
  title : String
  description : Option String
  option_1 : String
  option_2 : String
  option_3 : String
  option_4 : String
  correct_answer : Int
  test_id : Nat
  created_at : Nat
  updated_at : Nat
  is_deleted : Bool
  deriving DecidableEq, Repr

/-- The relational store: the three tables the core touches. -/
structure DB where
  users : List UserRow
  tests : List TestRow
  mcqs : List MCQRow
  deriving DecidableEq, Repr

/-- Errors surfaced by the storage backend (SQLAlchemy `IntegrityError`):
the CHECK constraint `check_correct_answer_range` on `mcq` and the UNIQUE
constraint on `user.email`. -/
inductive DBError where
  | integrityError
  deriving DecidableEq, Repr

/-- Primary-key uniqueness of the `test` table, a guarantee of the store
(`id` is `primary_key=True`). -/
def DB.testIdUnique (db : DB) : Prop :=
  ∀ t1 ∈ db.tests, ∀ t2 ∈ db.tests, t1.id = t2.id → t1 = t2

/-- Primary-key uniqueness of the `mcq` table. -/
def DB.mcqIdUnique (db : DB) : Prop :=
  ∀ m1 ∈ db.mcqs, ∀ m2 ∈ db.mcqs, m1.id = m2.id → m1 = m2

instance (db : DB) : Decidable db.testIdUnique := by
  unfold DB.testIdUnique; infer_instance

instance (db : DB) : Decidable db.mcqIdUnique := by
  unfold DB.mcqIdUnique; infer_instance

/-! ## TestRepository (app/test_management/repository.py) -/

/-- `TestRepository.get_by_id`: select the test matching id, owner and
`is_deleted == False`. -/
def TestRepository.get_by_id (db : DB) (test_id user_id : Nat) : Option TestRow :=
  db.tests.find? (fun t => t.id == test_id && t.user_id == user_id && t.is_deleted == false)

/-- `TestRepository.get_all_by_user`: all active tests of a user, ordered by
`created_at` descending. -/
def TestRepository.get_all_by_user (db : DB) (user_id : Nat) : List TestRow :=
  List.insertionSort (fun a b => b.created_at ≤ a.created_at)
    (db.tests.filter (fun t => t.user_id == user_id && t.is_deleted == false))

/-- `TestRepository.update`: ownership check via `get_by_id`, then a partial
update; fields passed as `None` are left out of `update_data`; an empty
`update_data` returns the row without issuing any UPDATE. -/
def TestRepository.update (db : DB) (now : Nat) (test_id user_id : Nat)
    (title : Option String) (description : Option String) : Option TestRow × DB :=
  match TestRepository.get_by_id db test_id user_id with
  | none => (none, db)
  | some test =>
    if title.isNone && description.isNone then
      (some test, db)
    else
      let apply_patch := fun (t : TestRow) =>
        { t with
          title := title.getD t.title
          description := match description with
            | some d => some d
            | none => t.description
          updated_at := now }
      let tests' := db.tests.map (fun t =>
        if t.id == test_id && t.user_id == user_id && t.is_deleted == false
        then apply_patch t else t)
      (some (apply_patch test), { db with tests := tests' })

/-- `TestRepository.soft_delete`: ownership check via `get_by_id`, then the
UPDATE setting `is_deleted = true` on the matching active row. -/
def TestRepository.soft_delete (db : DB) (now : Nat) (test_id user_id : Nat) : Bool × DB :=
  match TestRepository.get_by_id db test_id user_id with
  | none => (false, db)
  | some _ =>
    let tests' := db.tests.map (fun t =>
      if t.id == test_id && t.user_id == user_id && t.is_deleted == false
      then { t with is_deleted := true, updated_at := now } else t)
    (true, { db with tests := tests' })

/-- `TestRepository.count_by_user`: number of active tests of a user. -/
def TestRepository.count_by_user (db : DB) (user_id : Nat) : Nat :=
  (db.tests.filter (fun t => t.user_id == user_id && t.is_deleted == false)).length

/-- `TestRepository.exists` (primed because `exists` is a Lean keyword):
whether `get_by_id` finds an active owned row. -/
def TestRepository.exists' (db : DB) (test_id user_id : Nat) : Bool :=
  (TestRepository.get_by_id db test_id user_id).isSome

/-! ## MCQ model and boundary validation (app/mcq/models.py, app/mcq/schemas.py) -/

/-- The `@validates('correct_answer')` hook of the MCQ model: it raises
`ValueError` outside 1..4, and fires whenever the attribute is set through
the ORM (in particular in the `MCQ(...)` constructor used by
`MCQRepository.create`). -/
def MCQ.validate_correct_answer (value : Int) : Except String Int :=
  if value < 1 || value > 4 then
    Except.error "correct_answer must be between 1 and 4"
  else Except.ok value

/-- The CHECK constraint `check_correct_answer_range` declared in
`MCQ.__table_args__`: the database refuses to store a row violating it. -/
def MCQRow.check_correct_answer_range (m : MCQRow) : Bool :=
  1 ≤ m.correct_answer && m.correct_answer ≤ 4

/-- The `Field(..., ge=1, le=4)` bound on `correct_answer` in
`MCQCreateRequest` (boundary validation). -/
def MCQCreateRequest.correct_answer_field_ok (v : Int) : Bool :=
  1 ≤ v && v ≤ 4

/-- The `field_validator('correct_answer')` of `MCQCreateRequest`. -/
def MCQCreateRequest.validate_correct_answer (v : Int) : Except String Int :=
  if v < 1 || v > 4 then
    Except.error "correct_answer must be between 1 and 4"
  else Except.ok v

/-- The `field_validator('correct_answer')` of `MCQUpdateRequest`: the field
is optional there, `None` passes through. -/
def MCQUpdateRequest.validate_correct_answer (v : Option Int) : Except String (Option Int) :=
  match v with
  | none => Except.ok none
  | some x =>
    if x < 1 || x > 4 then
      Except.error "correct_answer must be between 1 and 4"
    else Except.ok v

/-- `MCQUpdateRequest` (app/mcq/schemas.py): every field optional. -/
structure MCQUpdateRequest where
  title : Option String := none
  description : Option String := none
  option_1 : Option String := none
  option_2 : Option String := none
  option_3 : Option String := none
  option_4 : Option String := none
  correct_answer : Option Int := none
  deriving DecidableEq, Repr

/-- `MCQResponse` (app/mcq/schemas.py): the full entity view. -/
structure MCQResponse where
  id : Nat
  title : String
  description : Option String
  option_1 : String
  option_2 : String
  option_3 : String
  option_4 : String
  correct_answer : Int
  test_id : Nat
  created_at : Nat
  updated_at : Nat
  deriving DecidableEq, Repr

/-- `MCQResponse.model_validate`: field-for-field copy from the row
(`from_attributes=True`). -/
def MCQResponse.model_validate (m : MCQRow) : MCQResponse :=
  { id := m.id
    title := m.title
    description := m.description
    option_1 := m.option_1
    option_2 := m.option_2
    option_3 := m.option_3
    option_4 := m.option_4
    correct_answer := m.correct_answer
    test_id := m.test_id
    created_at := m.created_at
    updated_at := m.updated_at }

/-- `MCQListResponse` (app/mcq/schemas.py). -/
structure MCQListResponse where
  questions : List MCQResponse
  total : Nat
  deriving DecidableEq, Repr

/-! ## MCQRepository (app/mcq/repository.py) -/

/-- Autoincrement for the `mcq` primary key. -/
def DB.next_mcq_id (db : DB) : Nat :=
  (db.mcqs.map (fun m => m.id)).foldr max 0 + 1

/-- `MCQRepository.get_by_id`: select the active question by id; no owner
column exists on `mcq`. -/
def MCQRepository.get_by_id (db : DB) (mcq_id : Nat) : Option MCQRow :=
  db.mcqs.find? (fun m => m.id == mcq_id && m.is_deleted == false)

/-- `MCQRepository.get_all_by_test`: all active questions of a test, ordered
by `created_at` ascending. -/
def MCQRepository.get_all_by_test (db : DB) (test_id : Nat) : List MCQRow :=
  List.insertionSort (fun a b => a.created_at ≤ b.created_at)
    (db.mcqs.filter (fun m => m.test_id == test_id && m.is_deleted == false))

/-- `MCQRepository.create`: the `MCQ(...)` constructor runs the
`@validates` hook (raising `ValueError` outside 1..4) before the INSERT. -/
def MCQRepository.create (db : DB) (now : Nat) (title : String)
    (description : Option String) (option_1 option_2 option_3 option_4 : String)
    (correct_answer : Int) (test_id : Nat) : Except String MCQRow × DB :=
  match MCQ.validate_correct_answer correct_answer with
  | Except.error e => (Except.error e, db)
  | Except.ok ca =>
    let m : MCQRow :=
      { id := db.next_mcq_id
        title := title
        description := description
        option_1 := option_1
        option_2 := option_2
        option_3 := option_3
        option_4 := option_4
        correct_answer := ca
        test_id := test_id
        created_at := now
        updated_at := now
        is_deleted := false }
    (Except.ok m, { db with mcqs := db.mcqs ++ [m] })

/-- `MCQRepository.update`: existence check via `get_by_id`, partial update
(`None` fields left out of `update_data`), early return on an empty patch.
The UPDATE statement goes through SQL Core, bypassing the ORM `@validates`
hook, so the only store-side guard left is the CHECK constraint: if any row
hit by the UPDATE would end up violating `check_correct_answer_range`, the
statement raises `IntegrityError` and nothing is written. -/
def MCQRepository.update (db : DB) (now : Nat) (mcq_id : Nat)
    (title description option_1 option_2 option_3 option_4 : Option String)
    (correct_answer : Option Int) : Except DBError (Option MCQRow) × DB :=
  match MCQRepository.get_by_id db mcq_id with
  | none => (Except.ok none, db)
  | some mcq =>
    if title.isNone && description.isNone && option_1.isNone && option_2.isNone
        && option_3.isNone && option_4.isNone && correct_answer.isNone then
      (Except.ok (some mcq), db)
    else
      let apply_patch := fun (m : MCQRow) =>
        { m with
          title := title.getD m.title
          description := match description with
            | some d => some d
            | none => m.description
          option_1 := option_1.getD m.option_1
          option_2 := option_2.getD m.option_2
          option_3 := option_3.getD m.option_3
          option_4 := option_4.getD m.option_4
          correct_answer := correct_answer.getD m.correct_answer
          updated_at := now }
      let hit := fun (m : MCQRow) => m.id == mcq_id && m.is_deleted == false
      if db.mcqs.any (fun m => hit m && !(apply_patch m).check_correct_answer_range) then
        (Except.error DBError.integrityError, db)
      else
        (Except.ok (some (apply_patch mcq)),
         { db with mcqs := db.mcqs.map (fun m => if hit m then apply_patch m else m) })

/-- `MCQRepository.soft_delete`: existence check via `get_by_id`, then the
UPDATE setting `is_deleted = true` on the matching active row. -/
def MCQRepository.soft_delete (db : DB) (now : Nat) (mcq_id : Nat) : Bool × DB :=
  match MCQRepository.get_by_id db mcq_id with
  | none => (false, db)
  | some _ =>
    (true, { db with mcqs := db.mcqs.map (fun m =>
      if m.id == mcq_id && m.is_deleted == false
      then { m with is_deleted := true, updated_at := now } else m) })

/-- `MCQRepository.count_by_test`: number of active questions of a test. -/
def MCQRepository.count_by_test (db : DB) (test_id : Nat) : Nat :=
  (db.mcqs.filter (fun m => m.test_id == test_id && m.is_deleted == false)).length

/-! ## MCQService (app/mcq/service.py) -/

/-- `MCQService.get_mcq`: resolve the question, then re-check ownership of
its parent test via `TestRepository.exists`. -/
def MCQService.get_mcq (db : DB) (mcq_id user_id : Nat) : Option MCQResponse :=
  match MCQRepository.get_by_id db mcq_id with
  | none => none
  | some mcq =>
    if TestRepository.exists' db mcq.test_id user_id then
      some (MCQResponse.model_validate mcq)
    else none

/-- `MCQService.get_test_mcqs`: ownership check first, then the ordered list
and a separately computed total. -/
def MCQService.get_test_mcqs (db : DB) (test_id user_id : Nat) : Option MCQListResponse :=
  if TestRepository.exists' db test_id user_id then
    let mcqs := MCQRepository.get_all_by_test db test_id
    let total := MCQRepository.count_by_test db test_id
    some { questions := mcqs.map MCQResponse.model_validate, total := total }
  else none

/-- `MCQService.update_mcq`: resolve the question, check ownership of its
parent test, then delegate to `MCQRepository.update` with the request's
fields. -/
def MCQService.update_mcq (db : DB) (now : Nat) (mcq_id : Nat)
    (request : MCQUpdateRequest) (user_id : Nat) :
    Except DBError (Option MCQResponse) × DB :=
  match MCQRepository.get_by_id db mcq_id with
  | none => (Except.ok none, db)
  | some mcq =>
    if TestRepository.exists' db mcq.test_id user_id then
      match MCQRepository.update db now mcq_id request.title request.description
          request.option_1 request.option_2 request.option_3 request.option_4
          request.correct_answer with
      | (Except.error e, db') => (Except.error e, db')
      | (Except.ok none, db') => (Except.ok none, db')
      | (Except.ok (some u), db') => (Except.ok (some (MCQResponse.model_validate u)), db')
    else (Except.ok none, db)

/-- `MCQService.delete_mcq`: resolve the question, check ownership of its
parent test, then delegate to `MCQRepository.soft_delete`. -/
def MCQService.delete_mcq (db : DB) (now : Nat) (mcq_id user_id : Nat) : Bool × DB :=
  match MCQRepository.get_by_id db mcq_id with
  | none => (false, db)
  | some mcq =>
    if TestRepository.exists' db mcq.test_id user_id then
      MCQRepository.soft_delete db now mcq_id
    else (false, db)

/-! ## Users: UserRepository (app/auth/repository.py) and AuthService
(app/auth/service.py) -/

/-- `HTTPException` as raised by the services: status code plus detail. -/
structure HTTPException where
  status_code : Nat
  detail : String
  deriving DecidableEq, Repr

/-- `AuthResponse` (app/auth/schemas.py). -/
structure AuthResponse where
  access_token : String
  token_type : String
  user_id : Nat
  email : String
  deriving DecidableEq, Repr

/-- `UserRepository.get_user_by_email`: the single active row matching the
email. -/
def UserRepository.get_user_by_email (db : DB) (email : String) : Option UserRow :=
  db.users.find? (fun u => u.email == email && u.is_deleted == false)

/-- `UserRepository.get_user_by_id`: the active row matching the id. -/
def UserRepository.get_user_by_id (db : DB) (user_id : Nat) : Option UserRow :=
  db.users.find? (fun u => u.id == user_id && u.is_deleted == false)

/-- `UserRepository.email_exists`: any row, soft-deleted or not. -/
def UserRepository.email_exists (db : DB) (email : String) : Bool :=
  (db.users.find? (fun u => u.email == email)).isSome

/-- Autoincrement for the `user` primary key. -/
def DB.next_user_id (db : DB) : Nat :=
  (db.users.map (fun u => u.id)).foldr max 0 + 1

/-- `UserRepository.create_user`: the INSERT; the UNIQUE constraint on
`email` (spanning deleted rows too) raises `IntegrityError` on a
duplicate. -/
def UserRepository.create_user (db : DB) (now : Nat) (email password_hash : String) :
    Except DBError (UserRow × DB) :=
  if (db.users.find? (fun u => u.email == email)).isSome then
    Except.error DBError.integrityError
  else
    let u : UserRow :=
      { id := db.next_user_id
        email := email
        password_hash := password_hash
        created_at := now
        updated_at := now
        is_deleted := false }
    Except.ok (u, { db with users := db.users ++ [u] })

/-- `AuthService.register_user`: pre-check via `email_exists`, hash, create,
and normalize the constraint violation of the race window to the same
400 "Email already registered" condition.  The hashing and token-issuing
capabilities are external collaborators, passed in as functions. -/
def AuthService.register_user (db : DB) (now : Nat)
    (get_password_hash : String → String) (create_access_token : Nat → String → String)
    (email password : String) : Except HTTPException AuthResponse × DB :=
  if UserRepository.email_exists db email then
    (Except.error { status_code := 400, detail := "Email already registered" }, db)
  else
    let password_hash := get_password_hash password
    match UserRepository.create_user db now email password_hash with
    | Except.error _ =>
      (Except.error { status_code := 400, detail := "Email already registered" }, db)
    | Except.ok (user, db') =>
      (Except.ok
        { access_token := create_access_token user.id user.email
          token_type := "bearer"
          user_id := user.id
          email := user.email }, db')

/-- `AuthService.login_user`: active-user lookup by email, then password
verification; both failures raise the same 401 "Invalid email or
password". -/
def AuthService.login_user (db : DB) (verify_password : String → String → Bool)
    (create_access_token : Nat → String → String) (email password : String) :
    Except HTTPException AuthResponse :=
  match UserRepository.get_user_by_email db email with
  | none => Except.error { status_code := 401, detail := "Invalid email or password" }
  | some user =>
    if verify_password password user.password_hash then
      Except.ok
        { access_token := create_access_token user.id user.email
          token_type := "bearer"
          user_id := user.id
          email := user.email }
    else Except.error { status_code := 401, detail := "Invalid email or password" }

/-! ## Shared lemmas about the test table -/

/-- Under primary-key uniqueness, looking a test up under a non-owner id
behaves exactly like looking up an id that does not exist. -/
theorem test_get_by_id_none_of_other_owner (db : DB) (T : TestRow) (A B : Nat)
    (hwf : db.testIdUnique) (hmem : T ∈ db.tests) (hA : T.user_id = A) (hB : B ≠ A) :
    TestRepository.get_by_id db T.id B = none := by
  unfold TestRepository.get_by_id
  rw [List.find?_eq_none]
  intro x hx h
  simp only [Bool.and_eq_true, beq_iff_eq] at h
  obtain ⟨⟨hid, husr⟩, -⟩ := h
  have hxT : x = T := hwf x hx T hmem hid
  subst hxT
  rw [hA] at husr
  exact hB husr.symm

/-- After a soft delete of `(test_id, user_id)` — successful or not — the
owner-scoped lookup of that test returns none. -/
theorem test_get_by_id_after_soft_delete (db : DB) (now test_id user_id : Nat) :
    TestRepository.get_by_id (TestRepository.soft_delete db now test_id user_id).2
      test_id user_id = none := by
  cases h : TestRepository.get_by_id db test_id user_id with
  | none =>
    unfold TestRepository.soft_delete
    rw [h]
    exact h
  | some t =>
    unfold TestRepository.soft_delete
    rw [h]
    unfold TestRepository.get_by_id
    dsimp only
    rw [List.find?_eq_none]
    intro x hx
    rw [List.mem_map] at hx
    obtain ⟨y, hy, rfl⟩ := hx
    by_cases hcase : (y.id == test_id && y.user_id == user_id && y.is_deleted == false) = true
    · rw [if_pos hcase]
      simp
    · rw [if_neg hcase]
      exact fun hcontra => hcase hcontra

/-- Soft-deleting a test writes only to the `test` table. -/
theorem soft_delete_test_preserves_mcqs (db : DB) (now test_id user_id : Nat) :
    (TestRepository.soft_delete db now test_id user_id).2.mcqs = db.mcqs := by
  unfold TestRepository.soft_delete
  cases h : TestRepository.get_by_id db test_id user_id <;> rfl

/-- Under primary-key uniqueness, an active question is the row its id
resolves to. -/
theorem mcq_get_by_id_eq_some (db : DB) (Q : MCQRow) (hwfQ : db.mcqIdUnique)
    (hQmem : Q ∈ db.mcqs) (hQactive : Q.is_deleted = false) :
    MCQRepository.get_by_id db Q.id = some Q := by
  unfold MCQRepository.get_by_id
  cases h : db.mcqs.find? (fun m => m.id == Q.id && m.is_deleted == false) with
  | none =>
    exfalso
    have hQ := List.find?_eq_none.mp h Q hQmem
    simp [hQactive] at hQ
  | some m =>
    have h1 := List.find?_some h
    have h2 := List.mem_of_find?_eq_some h
    simp only [Bool.and_eq_true, beq_iff_eq] at h1
    rw [hwfQ m h2 Q hQmem h1.1]

/-! ## Concrete sample data used by the witness theorems -/

/-- Sample user, owner of the sample test. -/
def userA : UserRow :=
  { id := 1, email := "a@x.com", password_hash := "ha"
    created_at := 0, updated_at := 0, is_deleted := false }

/-- Sample active test owned by user 1. -/
def testT : TestRow :=
  { id := 1, title := "Quiz", description := none, user_id := 1
    created_at := 0, updated_at := 0, is_deleted := false }

/-- Sample active question under test 1. -/
def mcqQ : MCQRow :=
  { id := 1, title := "Q1", description := none
    option_1 := "A", option_2 := "B", option_3 := "C", option_4 := "D"
    correct_answer := 3, test_id := 1
    created_at := 0, updated_at := 0, is_deleted := false }

/-- Second sample active question under test 1. -/
def mcqQ2 : MCQRow :=
  { mcqQ with id := 2, title := "Q2", created_at := 1 }

/-- Sample store: one user, one test, two active questions. -/
def db0 : DB := { users := [userA], tests := [testT], mcqs := [mcqQ, mcqQ2] }

/-! ## C1 -/

/-- C1: for every Test T owned by user A and every user B ≠ A,
`get(T.id, B)` returns none, `update(T.id, B, patch)` returns none with the
store untouched, and `delete(T.id, B)` returns false with the store
untouched — the same outward result as when no such test exists. -/
theorem C1_ownership_isolation (db : DB) (T : TestRow) (A B now : Nat)
    (title description : Option String)
    (hwf : db.testIdUnique) (hmem : T ∈ db.tests) (hA : T.user_id = A) (hB : B ≠ A) :
    TestRepository.get_by_id db T.id B = none ∧
    TestRepository.update db now T.id B title description = (none, db) ∧
    TestRepository.soft_delete db now T.id B = (false, db) := by
  have hget := test_get_by_id_none_of_other_owner db T A B hwf hmem hA hB
  refine ⟨hget, ?_, ?_⟩
  · unfold TestRepository.update
    rw [hget]
  · unfold TestRepository.soft_delete
    rw [hget]

/-- C1 witness: in the sample store, user 2 gets the not-found outcome on
user 1's test. -/
theorem C1_ownership_isolation_witness :
    (2 : Nat) ≠ 1 ∧
    TestRepository.get_by_id db0 1 2 = none ∧
    TestRepository.update db0 7 1 2 (some "new") none = (none, db0) ∧
    TestRepository.soft_delete db0 7 1 2 = (false, db0) :=
  ⟨by decide,
   C1_ownership_isolation db0 testT 1 2 7 (some "new") none
     (by decide) (by decide) rfl (by decide)⟩

/-- A soft delete attempt on an id the owner-scoped lookup cannot see
reports false. -/
theorem test_soft_delete_fst_eq_false (db : DB) (now test_id user_id : Nat)
    (h : TestRepository.get_by_id db test_id user_id = none) :
    (TestRepository.soft_delete db now test_id user_id).1 = false := by
  unfold TestRepository.soft_delete
  rw [h]

/-! ## C4 -/

/-- C4: once `delete(test_id, owner)` returns true, `get(test_id, owner)`
returns none, the id no longer appears in `listForOwner(owner)`, and a
second `delete` returns false. -/
theorem C4_soft_delete_visibility (db : DB) (now now2 test_id user_id : Nat)
    (h : (TestRepository.soft_delete db now test_id user_id).1 = true) :
    TestRepository.get_by_id (TestRepository.soft_delete db now test_id user_id).2
      test_id user_id = none ∧
    test_id ∉ (TestRepository.get_all_by_user
      (TestRepository.soft_delete db now test_id user_id).2 user_id).map (fun t => t.id) ∧
    (TestRepository.soft_delete (TestRepository.soft_delete db now test_id user_id).2
      now2 test_id user_id).1 = false := by
  have hget := test_get_by_id_after_soft_delete db now test_id user_id
  have hget' := hget
  unfold TestRepository.get_by_id at hget'
  rw [List.find?_eq_none] at hget'
  refine ⟨hget, ?_, ?_⟩
  · intro hmem
    rw [List.mem_map] at hmem
    obtain ⟨t, ht, hid⟩ := hmem
    unfold TestRepository.get_all_by_user at ht
    have ht2 := (List.perm_insertionSort
      (fun (a b : TestRow) => b.created_at ≤ a.created_at) _).subset ht
    rw [List.mem_filter] at ht2
    obtain ⟨htm, hpred⟩ := ht2
    apply hget' t htm
    simp only [Bool.and_eq_true, beq_iff_eq] at hpred ⊢
    exact ⟨⟨hid, hpred.1⟩, hpred.2⟩
  · exact test_soft_delete_fst_eq_false _ now2 _ _ hget

/-- C4 witness: deleting the sample test as its owner, then observing the
three after-effects. -/
theorem C4_soft_delete_visibility_witness :
    (TestRepository.soft_delete db0 5 1 1).1 = true ∧
    (TestRepository.get_by_id (TestRepository.soft_delete db0 5 1 1).2 1 1 = none ∧
     (1 : Nat) ∉ (TestRepository.get_all_by_user
       (TestRepository.soft_delete db0 5 1 1).2 1).map (fun t => t.id) ∧
     (TestRepository.soft_delete (TestRepository.soft_delete db0 5 1 1).2 6 1 1).1 = false) :=
  ⟨by decide, C4_soft_delete_visibility db0 5 6 1 1 (by decide)⟩

/-! ## C3 -/

/-- C3 counterexample: in the sample store user 1 owns test 1 with two
active questions; soft-deleting the test succeeds and `deleteAllForTest`
is never invoked, yet `get_mcq` afterwards returns none for both question
ids instead of still returning the questions. -/
theorem C3_counterexample :
    (TestRepository.soft_delete db0 5 1 1).1 = true ∧
    MCQService.get_mcq (TestRepository.soft_delete db0 5 1 1).2 1 1 = none ∧
    MCQService.get_mcq (TestRepository.soft_delete db0 5 1 1).2 2 1 = none := by
  decide

/-- C3 (amended): soft-deleting a test does not cascade — each active child
question row stays active and `MCQRepository.get_by_id` still returns it —
but the service-level `get_mcq` returns none even for the owner, because it
re-checks ownership against an active parent test. -/
theorem C3_no_cascade_store_level (db : DB) (now : Nat) (T : TestRow) (Q : MCQRow) (A : Nat)
    (hwfQ : db.mcqIdUnique)
    (hTmem : T ∈ db.tests) (hTA : T.user_id = A) (hTactive : T.is_deleted = false)
    (hQmem : Q ∈ db.mcqs) (hQactive : Q.is_deleted = false) (hQT : Q.test_id = T.id) :
    (TestRepository.soft_delete db now T.id A).1 = true ∧
    MCQRepository.get_by_id (TestRepository.soft_delete db now T.id A).2 Q.id = some Q ∧
    MCQService.get_mcq (TestRepository.soft_delete db now T.id A).2 Q.id A = none := by
  have hmcqs := soft_delete_test_preserves_mcqs db now T.id A
  have hQget : MCQRepository.get_by_id (TestRepository.soft_delete db now T.id A).2 Q.id
      = some Q := by
    unfold MCQRepository.get_by_id
    rw [hmcqs]
    exact mcq_get_by_id_eq_some db Q hwfQ hQmem hQactive
  have hTgone := test_get_by_id_after_soft_delete db now T.id A
  refine ⟨?_, hQget, ?_⟩
  · unfold TestRepository.soft_delete
    cases hfound : TestRepository.get_by_id db T.id A with
    | none =>
      exfalso
      unfold TestRepository.get_by_id at hfound
      have hT := List.find?_eq_none.mp hfound T hTmem
      simp [hTA, hTactive] at hT
    | some t => rfl
  · unfold MCQService.get_mcq
    rw [hQget]
    dsimp only
    unfold TestRepository.exists'
    rw [hQT, hTgone]
    rfl

/-- C3 amended-claim witness: the concrete run on the sample store. -/
theorem C3_no_cascade_store_level_witness :
    (TestRepository.soft_delete db0 5 1 1).1 = true ∧
    MCQRepository.get_by_id (TestRepository.soft_delete db0 5 1 1).2 1 = some mcqQ ∧
    MCQService.get_mcq (TestRepository.soft_delete db0 5 1 1).2 1 1 = none :=
  C3_no_cascade_store_level db0 5 testT mcqQ 1 (by decide)
    (by decide) rfl rfl (by decide) rfl rfl

/-! ## C2 -/

/-- C2: a question under a test owned by A is inaccessible through the
service to any user B ≠ A even with the correct question id: `get_mcq`
returns none, `update_mcq` returns none leaving the store untouched, and
`delete_mcq` returns false leaving the store untouched. -/
theorem C2_transitive_question_ownership (db : DB) (Q : MCQRow) (T : TestRow)
    (A B now : Nat) (request : MCQUpdateRequest)
    (hwfT : db.testIdUnique) (hwfQ : db.mcqIdUnique)
    (hQmem : Q ∈ db.mcqs) (hTmem : T ∈ db.tests) (hQT : Q.test_id = T.id)
    (hTA : T.user_id = A) (hB : B ≠ A) :
    MCQService.get_mcq db Q.id B = none ∧
    MCQService.update_mcq db now Q.id request B = (Except.ok none, db) ∧
    MCQService.delete_mcq db now Q.id B = (false, db) := by
  have hTnone := test_get_by_id_none_of_other_owner db T A B hwfT hTmem hTA hB
  cases hm : MCQRepository.get_by_id db Q.id with
  | none =>
    refine ⟨?_, ?_, ?_⟩
    · unfold MCQService.get_mcq
      rw [hm]
    · unfold MCQService.update_mcq
      rw [hm]
    · unfold MCQService.delete_mcq
      rw [hm]
  | some m =>
    have hmQ : m = Q := by
      have h1 := List.find?_some hm
      have h2 := List.mem_of_find?_eq_some hm
      simp only [Bool.and_eq_true, beq_iff_eq] at h1
      exact hwfQ m h2 Q hQmem h1.1
    rw [hmQ] at hm
    have hex : TestRepository.exists' db Q.test_id B = false := by
      unfold TestRepository.exists'
      rw [hQT, hTnone]
      rfl
    refine ⟨?_, ?_, ?_⟩
    · unfold MCQService.get_mcq
      rw [hm]
      dsimp only
      rw [hex]
      rfl
    · unfold MCQService.update_mcq
      rw [hm]
      dsimp only
      rw [hex]
      rfl
    · unfold MCQService.delete_mcq
      rw [hm]
      dsimp only
      rw [hex]
      rfl

/-- C2 witness: user 2 cannot see, change or delete question 1 of user 1's
test in the sample store. -/
theorem C2_transitive_question_ownership_witness :
    (2 : Nat) ≠ 1 ∧
    MCQService.get_mcq db0 1 2 = none ∧
    MCQService.update_mcq db0 9 1 { title := some "hacked" } 2 = (Except.ok none, db0) ∧
    MCQService.delete_mcq db0 9 1 2 = (false, db0) :=
  ⟨by decide,
   C2_transitive_question_ownership db0 mcqQ testT 1 2 9 { title := some "hacked" }
     (by decide) (by decide) (by decide) (by decide) rfl rfl (by decide)⟩

/-! ## C5 -/

/-- C5: whenever any user row — soft-deleted or not — carries email E,
registering E again fails with the 400 "Email already registered" conflict
and leaves the store unchanged (no user is created). -/
theorem C5_email_uniqueness_conflict (db : DB) (now : Nat)
    (get_password_hash : String → String) (create_access_token : Nat → String → String)
    (email password : String) (u : UserRow) (hu : u ∈ db.users) (he : u.email = email) :
    AuthService.register_user db now get_password_hash create_access_token email password =
      (Except.error { status_code := 400, detail := "Email already registered" }, db) := by
  have hex : UserRepository.email_exists db email = true := by
    unfold UserRepository.email_exists
    rw [List.find?_isSome]
    exact ⟨u, hu, by simp [he]⟩
  unfold AuthService.register_user
  rw [hex]
  rfl

/-- C5 witness: after user 1 is soft-deleted, registering the same email is
still rejected with the conflict condition. -/
def dbDeletedUser : DB :=
  { users := [{ userA with is_deleted := true }], tests := [], mcqs := [] }

/-- C5 witness theorem: the deleted-email re-registration scenario. -/
theorem C5_email_uniqueness_conflict_witness :
    ({ userA with is_deleted := true } : UserRow) ∈ dbDeletedUser.users ∧
    AuthService.register_user dbDeletedUser 3 (fun p => p) (fun _ e => e)
        "a@x.com" "pw12345a" =
      (Except.error { status_code := 400, detail := "Email already registered" },
       dbDeletedUser) :=
  ⟨by decide,
   C5_email_uniqueness_conflict dbDeletedUser 3 (fun p => p) (fun _ e => e)
     "a@x.com" "pw12345a" { userA with is_deleted := true } (by decide) rfl⟩

/-! ## C7 -/

/-- C7: the login failure when no active user matches the email and the
login failure when the password does not verify are the very same
401 "Invalid email or password" value — the two runs are indistinguishable
to the caller. -/
theorem C7_login_failures_indistinguishable (db1 db2 : DB)
    (verify_password : String → String → Bool)
    (create_access_token : Nat → String → String)
    (email1 password1 email2 password2 : String) (u : UserRow)
    (h1 : UserRepository.get_user_by_email db1 email1 = none)
    (h2 : UserRepository.get_user_by_email db2 email2 = some u)
    (hv : verify_password password2 u.password_hash = false) :
    AuthService.login_user db1 verify_password create_access_token email1 password1 =
      Except.error { status_code := 401, detail := "Invalid email or password" } ∧
    AuthService.login_user db2 verify_password create_access_token email2 password2 =
      AuthService.login_user db1 verify_password create_access_token email1 password1 := by
  have e1 : AuthService.login_user db1 verify_password create_access_token email1 password1 =
      Except.error { status_code := 401, detail := "Invalid email or password" } := by
    unfold AuthService.login_user
    rw [h1]
  have e2 : AuthService.login_user db2 verify_password create_access_token email2 password2 =
      Except.error { status_code := 401, detail := "Invalid email or password" } := by
    unfold AuthService.login_user
    rw [h2]
    dsimp only
    rw [hv]
    rfl
  exact ⟨e1, by rw [e1, e2]⟩

/-- C7 witness: unknown email against an empty store versus wrong password
against the sample store produce the same outcome. -/
def dbEmpty : DB := { users := [], tests := [], mcqs := [] }

/-- C7 witness theorem: the two concrete failing logins coincide. -/
theorem C7_login_failures_indistinguishable_witness :
    AuthService.login_user dbEmpty (fun _ _ => false) (fun _ e => e) "b@x.com" "pw" =
      Except.error { status_code := 401, detail := "Invalid email or password" } ∧
    AuthService.login_user db0 (fun _ _ => false) (fun _ e => e) "a@x.com" "wrong" =
      AuthService.login_user dbEmpty (fun _ _ => false) (fun _ e => e) "b@x.com" "pw" :=
  C7_login_failures_indistinguishable dbEmpty db0 (fun _ _ => false) (fun _ e => e)
    "b@x.com" "pw" "a@x.com" "wrong" userA rfl (by decide) rfl

/-! ## C9 -/

/-- C9: updating an owned active test or an active question with an empty
patch returns the stored entity unchanged and performs no write — the store
is exactly as before the call. -/
theorem C9_empty_patch_no_write (db : DB) (now test_id user_id mcq_id : Nat)
    (t : TestRow) (m : MCQRow)
    (ht : TestRepository.get_by_id db test_id user_id = some t)
    (hm : MCQRepository.get_by_id db mcq_id = some m) :
    TestRepository.update db now test_id user_id none none = (some t, db) ∧
    MCQRepository.update db now mcq_id none none none none none none none =
      (Except.ok (some m), db) := by
  constructor
  · unfold TestRepository.update
    rw [ht]
    rfl
  · unfold MCQRepository.update
    rw [hm]
    rfl

/-- C9 witness: empty-patch updates on the sample test and question are
observably no-ops. -/
theorem C9_empty_patch_no_write_witness :
    TestRepository.get_by_id db0 1 1 = some testT ∧
    MCQRepository.get_by_id db0 1 = some mcqQ ∧
    TestRepository.update db0 42 1 1 none none = (some testT, db0) ∧
    MCQRepository.update db0 42 1 none none none none none none none =
      (Except.ok (some mcqQ), db0) :=
  ⟨by decide, by decide,
   C9_empty_patch_no_write db0 42 1 1 1 testT mcqQ (by decide) (by decide)⟩

/-! ## C6 -/

/-- C6: a create or update carrying `correct_answer` outside 1..4 fails at
the boundary (the `ge=1, le=4` field bound and the request
field validators) and at the store (the ORM hook on create, the CHECK
constraint on update), so even an update bypassing boundary validation is
rejected with nothing persisted. -/
theorem C6_correct_answer_domain (v : Int) (db : DB) (now mcq_id test_id : Nat)
    (title : String) (description : Option String) (o1 o2 o3 o4 : String)
    (pt pd p1 p2 p3 p4 : Option String)
    (hv : v < 1 ∨ 4 < v) (hm : (MCQRepository.get_by_id db mcq_id).isSome = true) :
    MCQCreateRequest.correct_answer_field_ok v = false ∧
    MCQCreateRequest.validate_correct_answer v =
      Except.error "correct_answer must be between 1 and 4" ∧
    MCQUpdateRequest.validate_correct_answer (some v) =
      Except.error "correct_answer must be between 1 and 4" ∧
    MCQRepository.create db now title description o1 o2 o3 o4 v test_id =
      (Except.error "correct_answer must be between 1 and 4", db) ∧
    MCQRepository.update db now mcq_id pt pd p1 p2 p3 p4 (some v) =
      (Except.error DBError.integrityError, db) := by
  have hvb : (decide (v < 1) || decide (v > 4)) = true := by
    rcases hv with h | h <;> simp [h]
  have hnot : ¬ (1 ≤ v ∧ v ≤ 4) := by
    rcases hv with h | h <;> omega
  refine ⟨?_, ?_, ?_, ?_, ?_⟩
  · unfold MCQCreateRequest.correct_answer_field_ok
    rw [Bool.eq_false_iff]
    intro hcontra
    simp only [Bool.and_eq_true, decide_eq_true_eq] at hcontra
    exact hnot hcontra
  · unfold MCQCreateRequest.validate_correct_answer
    rw [hvb]
    rfl
  · unfold MCQUpdateRequest.validate_correct_answer
    dsimp only
    rw [hvb]
    rfl
  · unfold MCQRepository.create MCQ.validate_correct_answer
    rw [hvb]
    rfl
  · cases hmm : MCQRepository.get_by_id db mcq_id with
    | none =>
      rw [hmm] at hm
      simp at hm
    | some m =>
      have hpred := List.find?_some hmm
      have hmem := List.mem_of_find?_eq_some hmm
      unfold MCQRepository.update
      rw [hmm]
      dsimp only
      split
      · next hcond =>
        simp at hcond
      · split
        · rfl
        · next hany =>
          exfalso
          apply hany
          refine List.any_eq_true.mpr ⟨m, hmem, ?_⟩
          simp only [MCQRow.check_correct_answer_range, Option.getD_some, hpred,
            Bool.true_and, Bool.not_and, Bool.not_eq_true', Bool.or_eq_true,
            decide_eq_false_iff_not]
          by_cases hle : 1 ≤ v
          · exact Or.inr (fun hc => hnot ⟨hle, hc⟩)
          · exact Or.inl hle

/-- C6 witness: `correct_answer = 7` is rejected everywhere on the sample
store. -/
theorem C6_correct_answer_domain_witness :
    ((7 : Int) < 1 ∨ (4 : Int) < 7) ∧
    (MCQRepository.get_by_id db0 1).isSome = true ∧
    (MCQCreateRequest.correct_answer_field_ok 7 = false ∧
     MCQCreateRequest.validate_correct_answer 7 =
       Except.error "correct_answer must be between 1 and 4" ∧
     MCQUpdateRequest.validate_correct_answer (some 7) =
       Except.error "correct_answer must be between 1 and 4" ∧
     MCQRepository.create db0 11 "t" none "a" "b" "c" "d" 7 1 =
       (Except.error "correct_answer must be between 1 and 4", db0) ∧
     MCQRepository.update db0 11 1 none none none none none none (some 7) =
       (Except.error DBError.integrityError, db0)) :=
  ⟨by decide, by decide,
   C6_correct_answer_domain 7 db0 11 1 1 "t" none "a" "b" "c" "d"
     none none none none none none (by decide) (by decide)⟩

/-! ## C8 -/

instance : IsTotal MCQRow (fun a b => a.created_at ≤ b.created_at) :=
  ⟨fun a b => Nat.le_total a.created_at b.created_at⟩

instance : IsTrans MCQRow (fun a b => a.created_at ≤ b.created_at) :=
  ⟨fun _ _ _ => Nat.le_trans⟩

/-- C8: `listForTest` returns none when the user does not own the test;
when the user owns it, it returns every active question of the test,
ordered by creation time ascending, together with a separately computed
total equal to the length of the returned list. -/
theorem C8_list_for_test (db : DB) (test_id user_id : Nat) :
    (TestRepository.exists' db test_id user_id = false →
      MCQService.get_test_mcqs db test_id user_id = none) ∧
    (TestRepository.exists' db test_id user_id = true →
      ∃ res rows,
        MCQService.get_test_mcqs db test_id user_id = some res ∧
        res.questions = rows.map MCQResponse.model_validate ∧
        rows.Perm (db.mcqs.filter
          (fun m => m.test_id == test_id && m.is_deleted == false)) ∧
        List.Pairwise (fun a b => a.created_at ≤ b.created_at) rows ∧
        res.total = res.questions.length) := by
  constructor
  · intro hex
    unfold MCQService.get_test_mcqs
    rw [hex]
    rfl
  · intro hex
    refine ⟨⟨(MCQRepository.get_all_by_test db test_id).map MCQResponse.model_validate,
            MCQRepository.count_by_test db test_id⟩,
           MCQRepository.get_all_by_test db test_id, ?_, rfl, ?_, ?_, ?_⟩
    · unfold MCQService.get_test_mcqs
      rw [hex]
      rfl
    · unfold MCQRepository.get_all_by_test
      exact List.perm_insertionSort _ _
    · unfold MCQRepository.get_all_by_test
      exact List.sorted_insertionSort (fun (a b : MCQRow) => a.created_at ≤ b.created_at) _
    · have hlen := (List.perm_insertionSort
        (fun (a b : MCQRow) => a.created_at ≤ b.created_at)
        (db.mcqs.filter (fun m => m.test_id == test_id && m.is_deleted == false))).length_eq
      simp only [MCQRepository.count_by_test, MCQRepository.get_all_by_test,
        List.length_map, hlen]

/-- C8 witness: non-owner gets none; the owner gets both sample questions
in creation order with a matching total. -/
theorem C8_list_for_test_witness :
    (TestRepository.exists' db0 1 2 = false ∧
     MCQService.get_test_mcqs db0 1 2 = none) ∧
    (TestRepository.exists' db0 1 1 = true ∧
     ∃ res rows,
       MCQService.get_test_mcqs db0 1 1 = some res ∧
       res.questions = rows.map MCQResponse.model_validate ∧
       rows.Perm (db0.mcqs.filter
         (fun m => m.test_id == 1 && m.is_deleted == false)) ∧
       List.Pairwise (fun a b => a.created_at ≤ b.created_at) rows ∧
       res.total = res.questions.length) :=
  ⟨⟨by decide, (C8_list_for_test db0 1 2).1 (by decide)⟩,
   ⟨by decide, (C8_list_for_test db0 1 1).2 (by decide)⟩⟩

/-! ## C10 -/

/-- C10: in both update operations, a patch field whose value is `None`
leaves the corresponding stored column of every row untouched (Python
cannot distinguish an explicit null argument from an omitted one — both
arrive as `None`, a single value in this embedding); consequently a
description that is non-null can never be cleared back to null through
update, whatever the patch. -/
theorem C10_none_patch_field_absent (db : DB) (now test_id user_id mcq_id : Nat)
    (tt td : Option String)
    (mt md m1 m2 m3 m4 : Option String) (mca : Option Int) :
    List.Forall₂ (fun r r' : TestRow =>
        (tt = none → r'.title = r.title) ∧
        (td = none → r'.description = r.description) ∧
        (r.description.isSome = true → r'.description.isSome = true))
      db.tests (TestRepository.update db now test_id user_id tt td).2.tests ∧
    List.Forall₂ (fun r r' : MCQRow =>
        (mt = none → r'.title = r.title) ∧
        (md = none → r'.description = r.description) ∧
        (m1 = none → r'.option_1 = r.option_1) ∧
        (m2 = none → r'.option_2 = r.option_2) ∧
        (m3 = none → r'.option_3 = r.option_3) ∧
        (m4 = none → r'.option_4 = r.option_4) ∧
        (mca = none → r'.correct_answer = r.correct_answer) ∧
        (r.description.isSome = true → r'.description.isSome = true))
      db.mcqs (MCQRepository.update db now mcq_id mt md m1 m2 m3 m4 mca).2.mcqs := by
  constructor
  · unfold TestRepository.update
    cases h : TestRepository.get_by_id db test_id user_id with
    | none =>
      exact List.forall₂_same.mpr (fun x _ => ⟨fun _ => rfl, fun _ => rfl, fun h => h⟩)
    | some t =>
      dsimp only
      by_cases hc : (tt.isNone && td.isNone) = true
      · rw [if_pos hc]
        exact List.forall₂_same.mpr (fun x _ => ⟨fun _ => rfl, fun _ => rfl, fun h => h⟩)
      · rw [if_neg hc]
        dsimp only
        rw [List.forall₂_map_right_iff, List.forall₂_same]
        intro x _
        by_cases hhit : (x.id == test_id && x.user_id == user_id && x.is_deleted == false) = true
        · rw [if_pos hhit]
          refine ⟨fun h => by rw [h]; rfl, fun h => by rw [h], ?_⟩
          cases td <;> simp
        · rw [if_neg hhit]
          exact ⟨fun _ => rfl, fun _ => rfl, fun h => h⟩
  · unfold MCQRepository.update
    cases h : MCQRepository.get_by_id db mcq_id with
    | none =>
      exact List.forall₂_same.mpr (fun x _ =>
        ⟨fun _ => rfl, fun _ => rfl, fun _ => rfl, fun _ => rfl,
         fun _ => rfl, fun _ => rfl, fun _ => rfl, fun h => h⟩)
    | some m =>
      dsimp only
      by_cases hc : (mt.isNone && md.isNone && m1.isNone && m2.isNone
          && m3.isNone && m4.isNone && mca.isNone) = true
      · rw [if_pos hc]
        exact List.forall₂_same.mpr (fun x _ =>
          ⟨fun _ => rfl, fun _ => rfl, fun _ => rfl, fun _ => rfl,
           fun _ => rfl, fun _ => rfl, fun _ => rfl, fun h => h⟩)
      · rw [if_neg hc]
        split
        · exact List.forall₂_same.mpr (fun x _ =>
            ⟨fun _ => rfl, fun _ => rfl, fun _ => rfl, fun _ => rfl,
             fun _ => rfl, fun _ => rfl, fun _ => rfl, fun h => h⟩)
        · rw [List.forall₂_map_right_iff, List.forall₂_same]
          intro x _
          by_cases hhit : (x.id == mcq_id && x.is_deleted == false) = true
          · rw [if_pos hhit]
            refine ⟨fun h => by rw [h]; rfl, fun h => by rw [h],
              fun h => by rw [h]; rfl, fun h => by rw [h]; rfl,
              fun h => by rw [h]; rfl, fun h => by rw [h]; rfl,
              fun h => by rw [h]; rfl, ?_⟩
            cases md <;> simp
          · rw [if_neg hhit]
            exact ⟨fun _ => rfl, fun _ => rfl, fun _ => rfl, fun _ => rfl,
             fun _ => rfl, fun _ => rfl, fun _ => rfl, fun h => h⟩

/-- C10 witness: a patch with every field `None` relates the sample store
to itself under the frame relation. -/
theorem C10_none_patch_field_absent_witness :
    List.Forall₂ (fun r r' : TestRow =>
        ((none : Option String) = none → r'.title = r.title) ∧
        ((none : Option String) = none → r'.description = r.description) ∧
        (r.description.isSome = true → r'.description.isSome = true))
      db0.tests (TestRepository.update db0 8 1 1 none none).2.tests ∧
    List.Forall₂ (fun r r' : MCQRow =>
        ((none : Option String) = none → r'.title = r.title) ∧
        ((none : Option String) = none → r'.description = r.description) ∧
        ((none : Option String) = none → r'.option_1 = r.option_1) ∧
        ((none : Option String) = none → r'.option_2 = r.option_2) ∧
        ((none : Option String) = none → r'.option_3 = r.option_3) ∧
        ((none : Option String) = none → r'.option_4 = r.option_4) ∧
        ((none : Option Int) = none → r'.correct_answer = r.correct_answer) ∧
        (r.description.isSome = true → r'.description.isSome = true))
      db0.mcqs (MCQRepository.update db0 8 1 none none none none none none none).2.mcqs :=
  C10_none_patch_field_absent db0 8 1 1 1 none none none none none none none none none

end FastapiMcq
